import Mathlib

/-!
Shallow embedding of the Isolation Governance Engine of the AI SOC analyst
repository: GUARDRAILS.py, database/db_manager.py, notifications/alert_manager.py
and the per-threat response loop of _main.py.

Conventions of the embedding:
- Python strings are Lean `String`; `str.lower()` is modelled by the ASCII case
  mapping (`Char.toLower`), and `str.strip()` by dropping the ASCII whitespace
  characters that Python strips, at both ends.
- Timestamps are seconds since an arbitrary epoch, as `Nat`.  The SQLite layer
  compares ISO-8601 strings lexicographically, which is chronological order for
  a fixed format, so `timestamp >= cutoff` is modelled as a `Nat` comparison.
- The SQLite tables `isolation_events` and `audit_log`, the lock file, and the
  current clock are gathered in a `World` record; functions with side effects
  take and return a `World`.
- Python raises `TypeError` when a function is invoked with fewer positional
  arguments than its parameters without defaults require.  Such calls are
  modelled as `Except PyError` values that are `.error` before any body runs.
-/

namespace SOCAgent

/-- Equality of Except values is decidable componentwise. -/
instance {ε α : Type} [DecidableEq ε] [DecidableEq α] : DecidableEq (Except ε α) := fun a b =>
  match a, b with
  | .ok x, .ok y =>
    if h : x = y then .isTrue (by rw [h]) else .isFalse (by simp [h])
  | .error x, .error y =>
    if h : x = y then .isTrue (by rw [h]) else .isFalse (by simp [h])
  | .ok _, .error _ => .isFalse (by simp)
  | .error _, .ok _ => .isFalse (by simp)

/-- ASCII lowercasing of a string, modelling Python `str.lower()` (the
repository only compares against ASCII keywords such as "critical"). -/
def pyLower (s : String) : String :=
  ⟨s.data.map Char.toLower⟩

/-- The ASCII whitespace characters removed by Python `str.strip()`:
space, tab, newline, carriage return, vertical tab, form feed. -/
def pyIsSpace (c : Char) : Bool :=
  c == ' ' || c == '\t' || c == '\n' || c == '\r' ||
  c == Char.ofNat 11 || c == Char.ofNat 12

/-- Python `str.strip()`: remove leading and trailing whitespace. -/
def pyStrip (s : String) : String :=
  ⟨((s.data.dropWhile pyIsSpace).reverse.dropWhile pyIsSpace).reverse⟩

/-- Python `s.startswith(pre)`, on the character lists. -/
def pyStartsWith (s pre : String) : Bool :=
  pre.data.isPrefixOf s.data

/-- Python `a or b` on optional strings: `a` unless it is missing or empty,
else `b` (the empty string is falsy in Python). -/
def pyOrStr (a : Option String) (b : Option String) : Option String :=
  match a with
  | some s => if s = "" then b else some s
  | none => b

/-! ## ISOLATION_LIMITS (GUARDRAILS.py lines 21 to 27) -/

def ISOLATION_LIMITS_per_5_minutes : Nat := 5
def ISOLATION_LIMITS_per_hour : Nat := 10
def ISOLATION_LIMITS_per_day : Nat := 15
def ISOLATION_LIMITS_batch_size_max : Nat := 50
def ISOLATION_LIMITS_high_threat_count_max : Nat := 10

/-! ## CONFIDENCE_RULES (GUARDRAILS.py lines 33 to 38) -/

/-- CONFIDENCE_RULES.get(key, dflt): lookup in the literal dict
critical to auto_isolate, high to require_confirmation,
medium to require_confirmation, low to no_auto_isolate,
with the default of dict.get for any other key. -/
def CONFIDENCE_RULES_get (key : String) (dflt : String) : String :=
  if key = "critical" then "auto_isolate"
  else if key = "high" then "require_confirmation"
  else if key = "medium" then "require_confirmation"
  else if key = "low" then "no_auto_isolate"
  else dflt

/-- should_auto_isolate (GUARDRAILS.py lines 359 to 373). -/
def should_auto_isolate (confidence : String) : Bool :=
  CONFIDENCE_RULES_get (pyLower confidence) "require_confirmation" == "auto_isolate"

/-- requires_confirmation (GUARDRAILS.py lines 375 to 389). -/
def requires_confirmation (confidence : String) : Bool :=
  CONFIDENCE_RULES_get (pyLower confidence) "require_confirmation" == "require_confirmation"

/-! ## check_mass_isolation_exception (GUARDRAILS.py lines 221 to 279) -/

/-- A threat dictionary as produced by the hunt: the fields read by the
governance code, each optional because the Python code accesses them with
dict.get. -/
structure Threat where
  confidence? : Option String
  device_name? : Option String
  title? : Option String
  indicators_of_compromise : List String
  deriving DecidableEq, Repr

/-- One entry of the threat_summary list built by
check_mass_isolation_exception. -/
structure ThreatSummaryItem where
  title : String
  confidence : String
  device_name : String
  iocs : List String
  deriving DecidableEq, Repr

/-- The dict returned by check_mass_isolation_exception. -/
structure MassExceptionResult where
  exception_applies : Bool
  high_count : Nat
  critical_count : Nat
  total_high_critical : Nat
  total_devices : Nat
  threat_summary : List ThreatSummaryItem
  deriving DecidableEq, Repr

/-- Insert a string into the list representation of a Python set
(membership test, no duplicates; only the cardinality is consumed). -/
def insertUnique (l : List String) (s : String) : List String :=
  if s ∈ l then l else l ++ [s]

/-- check_mass_isolation_exception (GUARDRAILS.py lines 221 to 279): tallies
high and critical confidence threats case-insensitively, collects the set of
affected devices (per-threat device_name, else the device_name argument),
sets exception_applies when the combined count reaches 10, and builds a
summary of the first 10 critical-then-high threats with up to 3 IOCs each. -/
def check_mass_isolation_exception (threats : List Threat)
    (device_name : Option String) : MassExceptionResult :=
  let high_threats := threats.filter fun t => pyLower (t.confidence?.getD "") == "high"
  let critical_threats := threats.filter fun t => pyLower (t.confidence?.getD "") == "critical"
  let high_count := high_threats.length
  let critical_count := critical_threats.length
  let total_high_critical := high_count + critical_count
  let unique_devices := threats.foldl (fun acc t =>
      match pyOrStr t.device_name? device_name with
      | some dev => if dev = "" then acc else insertUnique acc dev
      | none => acc) []
  let device_count := unique_devices.length
  let exception_applies := decide (10 ≤ total_high_critical)
  let threat_summary := ((critical_threats ++ high_threats).take 10).map fun t =>
      { title := t.title?.getD "Unknown threat"
        confidence := t.confidence?.getD "unknown"
        device_name := (pyOrStr t.device_name? (pyOrStr device_name (some "Unknown"))).getD "Unknown"
        iocs := t.indicators_of_compromise.take 3 }
  { exception_applies, high_count, critical_count, total_high_critical,
    total_devices := device_count, threat_summary }

/-! ## confirm_mass_isolation (GUARDRAILS.py lines 282 to 357) -/

/-- The dict returned by confirm_mass_isolation. -/
structure ConfirmDecision where
  approved : Bool
  user_input : String
  timestamp : Nat
  deriving DecidableEq, Repr

/-- confirm_mass_isolation (GUARDRAILS.py lines 282 to 357): after displaying
the summary and a 5 second countdown, reads one line, strips surrounding
whitespace (line 340: input(...).strip()), and approves exactly when the
stripped text equals the fixed phrase.  The display, the countdown and the
raw line are the only uses of the exception data and the console; the
decision itself depends only on the stripped input. -/
def confirm_mass_isolation (exception_data : MassExceptionResult)
    (raw_input : String) (now : Nat) : ConfirmDecision :=
  let user_input := pyStrip raw_input
  let approved := user_input == "CONFIRM MASS ISOLATION"
  { approved, user_input, timestamp := now }

/-! ## check_batch_size (GUARDRAILS.py lines 194 to 219) -/

/-- The dict returned by check_batch_size. -/
structure BatchSizeResult where
  allowed : Bool
  reason : String
  deriving DecidableEq, Repr

/-- check_batch_size (GUARDRAILS.py lines 194 to 219). -/
def check_batch_size (threat_count : Nat) : BatchSizeResult :=
  if threat_count > ISOLATION_LIMITS_batch_size_max then
    { allowed := false
      reason := "Too many threats in single hunt (" ++ toString threat_count ++
        "). Narrow your search scope." }
  else
    { allowed := true, reason := "Batch size acceptable" }

/-! ## Persistence model: lock file and SQLite tables
(GUARDRAILS.py lines 66 to 122, database/db_manager.py) -/

/-- One row of the isolation_events table, with the columns written by
log_isolation_event (db_manager.py lines 199 to 246). -/
structure IsolationEvent where
  timestamp : Nat
  user : String
  machine_id : String
  device_name : String
  threat_id : String
  threat_title : String
  action_result : String
  approved_by : Option String
  user_decision : Option String
  alert_sent : Bool
  deriving DecidableEq, Repr

/-- One row of the audit_log table, with the columns written by log_action
(db_manager.py lines 24 to 60); the JSON details dict is kept as an
association list. -/
structure AuditRecord where
  action_type : String
  success : Bool
  user : String
  device_name : Option String
  details : List (String × String)
  deriving DecidableEq, Repr

/-- The contents of the .lock file that matter to the code: the creation
time and the reason interpolated into it (GUARDRAILS.py lines 97 to 110). -/
structure LockInfo where
  time : Nat
  reason : String
  deriving DecidableEq, Repr

/-- The persistent state the governance code reads and writes: the lock
file (absent or present), the two tables, and the current clock. -/
structure World where
  lockFile : Option LockInfo
  events : List IsolationEvent
  audit : List AuditRecord
  now : Nat
  deriving DecidableEq, Repr

/-- check_lockout (GUARDRAILS.py lines 71 to 87): LOCK_FILE.exists(). -/
def check_lockout (w : World) : Bool :=
  w.lockFile.isSome

/-- log_action (db_manager.py lines 24 to 60): append one audit_log row. -/
def log_action (action_type : String) (success : Bool) (user : String)
    (device_name : Option String) (details : List (String × String))
    (w : World) : World :=
  { w with audit := w.audit ++ [{ action_type, success, user, device_name, details }] }

/-- create_lockout (GUARDRAILS.py lines 89 to 122): unconditionally write
the lock file (LOCK_FILE.write_text overwrites an existing file) with the
current time and the reason, then log_action an agent_lockout record with
the default user "system".  There is no check whether the lock already
exists. -/
def create_lockout (reason : String) (w : World) : World :=
  log_action "agent_lockout" true "system" none [("reason", reason)]
    { w with lockFile := some { time := w.now, reason } }

/-- count_isolations_in_window (db_manager.py lines 297 to 339) with the
window already converted to seconds (the callers pass minutes=5, hours=1,
hours=24): count rows with timestamp at or after now minus the window,
action_result equal to the literal string "success", and, when the user
argument is truthy (a non-empty string), a matching user column. -/
def count_isolations_in_window (windowSeconds : Nat) (user : String)
    (events : List IsolationEvent) (now : Nat) : Nat :=
  (events.filter fun e =>
    decide (now - windowSeconds ≤ e.timestamp) &&
    (user == "" || e.user == user) &&
    e.action_result == "success").length

/-- log_isolation_event (db_manager.py lines 199 to 246): append one
isolation_events row stamped with the current clock. -/
def log_isolation_event (machine_id device_name threat_id threat_title
    action_result user : String) (approved_by user_decision : Option String)
    (alert_sent : Bool) (w : World) : World :=
  { w with events := w.events ++
      [{ timestamp := w.now, user, machine_id, device_name, threat_id,
         threat_title, action_result, approved_by, user_decision, alert_sent }] }

/-- log_user_decision (db_manager.py lines 77 to 98). -/
def log_user_decision (device_name threat_title decision threat_confidence : String)
    (w : World) : World :=
  log_action "user_decision" true "system" (some device_name)
    [("threat_title", threat_title), ("decision", decision),
     ("threat_confidence", threat_confidence)] w

/-! ## Alerting (notifications/alert_manager.py)

send_email_alert (alert_manager.py line 17) is declared as
def send_email_alert(subject, body, to_email) with no default for to_email,
although its docstring says to_email "defaults to SOC_LEAD_EMAIL from
config" and its body begins with a fallback for a falsy to_email.  Every
call of it inside alert_manager.py passes only (subject, body), so in
Python each of those calls raises
TypeError: send_email_alert() missing 1 required positional argument
before the body runs.  Likewise alert_rate_limit_exceeded
(alert_manager.py line 67) requires (isolation_count, time_window,
device_name), and GUARDRAILS.py lines 151 and 168 call it with only two
arguments, raising TypeError at the call site. -/

/-- A Python exception value relevant to the embedded code. -/
inductive PyError where
  | typeError (msg : String)
  deriving DecidableEq, Repr

/-- The two-argument call send_email_alert(subject, body): raises TypeError
because the parameter to_email has no default. -/
def send_email_alert_call2 (subject body : String) : Except PyError Bool :=
  .error (.typeError
    "send_email_alert missing 1 required positional argument: to_email")

/-- The two-argument call alert_rate_limit_exceeded(count, window) made by
GUARDRAILS.py lines 151 and 168: raises TypeError because the parameter
device_name has no default. -/
def alert_rate_limit_exceeded_call2 (isolation_count : Nat)
    (time_window : String) : Except PyError Bool :=
  .error (.typeError
    "alert_rate_limit_exceeded missing 1 required positional argument: device_name")

/-- alert_mass_isolation_attempt (alert_manager.py lines 144 to 183):
builds subject and body, then performs the two-argument
send_email_alert call.  The email text is elided; only the call behaviour
is observable to the governance code. -/
def alert_mass_isolation_attempt (isolation_count : Nat) (user : String) :
    Except PyError Bool :=
  send_email_alert_call2
    "CRITICAL: Potential Mass Isolation Attack Detected"
    ("mass isolation attempt: " ++ toString isolation_count ++ " by " ++ user)

/-- alert_daily_limit_reached (alert_manager.py lines 185 to 218). -/
def alert_daily_limit_reached (user : String) : Except PyError Bool :=
  send_email_alert_call2
    "SOC Agent: Daily Isolation Limit Reached - Approval Required"
    ("daily limit reached by " ++ user)

/-- alert_isolation_declined (alert_manager.py lines 107 to 142). -/
def alert_isolation_declined (device_name threat_title threat_confidence
    user : String) : Except PyError Bool :=
  send_email_alert_call2
    "SOC Agent Alert: High-Confidence Threat Isolation Declined"
    ("declined on " ++ device_name ++ ": " ++ threat_title ++ " (" ++
      threat_confidence ++ ") by " ++ user)

/-- alert_mass_isolation_decision (alert_manager.py lines 220 to 278). -/
def alert_mass_isolation_decision (device_count threat_count : Nat)
    (decision user : String) : Except PyError Bool :=
  send_email_alert_call2
    ("Mass Isolation " ++ decision ++ ": " ++ toString device_count ++ " devices")
    ("mass isolation " ++ decision ++ " for " ++ toString threat_count ++
      " threats by " ++ user)

/-! ## check_isolation_rate_limits (GUARDRAILS.py lines 128 to 192) -/

/-- The dict returned by check_isolation_rate_limits. -/
structure RateLimitResult where
  allowed : Bool
  reason : String
  current_count : Nat
  deriving DecidableEq, Repr

/-- check_isolation_rate_limits (GUARDRAILS.py lines 128 to 192), transcribed
branch for branch.  The alert calls are performed where the Python performs
them; a raised exception propagates out of the function (there is no
try/except in it), carrying whatever state changes already happened.
Note that the create_lockout call of line 155 sits after the
alert_rate_limit_exceeded call of line 151 in the same branch. -/
def check_isolation_rate_limits (user : String) (w : World) :
    Except PyError RateLimitResult × World :=
  if check_lockout w then
    (.ok { allowed := false, reason := "Agent is locked", current_count := 0 }, w)
  else
    let count_5min := count_isolations_in_window 300 user w.events w.now
    if count_5min ≥ ISOLATION_LIMITS_per_5_minutes then
      match alert_rate_limit_exceeded_call2 count_5min "5 minutes" with
      | .error e => (.error e, w)
      | .ok _ =>
        let denial : RateLimitResult :=
          { allowed := false
            reason := "5-minute limit exceeded (" ++ toString count_5min ++ "/" ++
              toString ISOLATION_LIMITS_per_5_minutes ++ ")"
            current_count := count_5min }
        if count_5min > ISOLATION_LIMITS_per_5_minutes * 2 then
          let w1 := create_lockout
            ("Excessive isolation rate: " ++ toString count_5min ++ " in 5 minutes") w
          match alert_mass_isolation_attempt count_5min user with
          | .error e => (.error e, w1)
          | .ok _ => (.ok denial, w1)
        else
          (.ok denial, w)
    else
      let count_1hour := count_isolations_in_window 3600 user w.events w.now
      if count_1hour > ISOLATION_LIMITS_per_hour then
        match alert_rate_limit_exceeded_call2 count_1hour "1 hour" with
        | .error e => (.error e, w)
        | .ok _ =>
          (.ok { allowed := false
                 reason := "Hourly limit exceeded (" ++ toString count_1hour ++ "/" ++
                   toString ISOLATION_LIMITS_per_hour ++ ")"
                 current_count := count_1hour }, w)
      else
        let count_24hour := count_isolations_in_window 86400 user w.events w.now
        if count_24hour > ISOLATION_LIMITS_per_day then
          match alert_daily_limit_reached user with
          | .error e => (.error e, w)
          | .ok _ =>
            (.ok { allowed := false
                   reason := "Daily limit reached (" ++ toString count_24hour ++ "/" ++
                     toString ISOLATION_LIMITS_per_day ++ ") - SOC lead approval required"
                   current_count := count_24hour }, w)
        else
          (.ok { allowed := true, reason := "Within rate limits",
                 current_count := count_5min }, w)

/-! ## The per-threat response loop of _main.py (lines 211 to 358)

The loop iterates over the hunt findings in order.  Host-scoped processing
runs when query_is_about_individual_host or mass_isolation_approved holds
(line 222); both are folded into one Boolean here.  Every isolation in the
loop targets query_context["device_name"], passed here as device_name, and
every database row is written with user "cli_user" and threat_id hunt_id.
The external responses consumed by one iteration (the confirmation line
typed at the prompt, the machine id resolved by the Action Executor, and
whether the quarantine call succeeds) are supplied per threat as an Env. -/

/-- External responses consumed by one iteration of the loop. -/
structure Env where
  confirmInput : String
  machineId : Option String
  isolateSuccess : Bool
  deriving DecidableEq, Repr

/-- The fields of a hunt finding the loop reads directly (threat["confidence"],
threat["title"]). -/
structure ThreatCtx where
  confidence : String
  title : String
  deriving DecidableEq, Repr

/-- Observable actions of the loop, tagged with the index of the threat
being processed. -/
inductive TraceEv where
  | rateCheck (i : Nat)
  | rateDenied (i : Nat)
  | crashed (i : Nat)
  | confirmPrompt (i : Nat)
  | isolationAttempt (i : Nat)
  | isolationLog (i : Nat) (device : String) (succeeded : Bool)
  | skippedAlreadyIsolated (i : Nat)
  deriving DecidableEq, Repr

/-- The index of the threat an event belongs to. -/
def TraceEv.idx : TraceEv → Nat
  | .rateCheck i | .rateDenied i | .crashed i | .confirmPrompt i
  | .isolationAttempt i | .skippedAlreadyIsolated i => i
  | .isolationLog i _ _ => i

/-- Mutable state of the loop: the persistent world plus the
machine_is_isolated flag (_main.py line 211). -/
structure LoopSt where
  w : World
  isolated : Bool
  deriving DecidableEq, Repr

/-- The isolation attempt shared by the auto-isolate branch (_main.py lines
245 to 277) and the confirmed branch (lines 287 to 320): resolve the machine
id; if it is truthy, quarantine; on success set machine_is_isolated and log a
success row, on failure log a failed row (the two branches differ only in the
user_decision column values, passed in as udSuccess and udFail).  When the
resolver returns nothing, nothing further happens and no row is logged. -/
def attemptIsolation (device_name hunt_id threat_title : String) (i : Nat)
    (udSuccess udFail : Option String) (e : Env) (s : LoopSt) :
    LoopSt × List TraceEv :=
  match e.machineId with
  | none => (s, [.isolationAttempt i])
  | some mid =>
    if e.isolateSuccess then
      ({ w := (log_isolation_event mid device_name hunt_id threat_title
                "success" "cli_user" none udSuccess false s.w)
         isolated := true },
       [.isolationAttempt i, .isolationLog i device_name true])
    else
      ({ s with w := (log_isolation_event mid device_name hunt_id threat_title
                      "failed" "cli_user" none udFail false s.w) },
       [.isolationAttempt i, .isolationLog i device_name false])

/-- One iteration of the loop body (_main.py lines 214 to 356) for the threat
at index i.  Returns the new state, the events of this iteration, whether the
iteration broke out of the loop (the rate-limit denial of line 233), and
whether it crashed the process with an uncaught exception. -/
def stepThreat (hostOrMass : Bool) (device_name hunt_id : String) (i : Nat)
    (t : ThreatCtx) (e : Env) (s : LoopSt) :
    LoopSt × List TraceEv × Bool × Bool :=
  let threat_confidence := pyLower t.confidence
  if hostOrMass then
    if s.isolated then
      (s, [.skippedAlreadyIsolated i], false, false)
    else
      match check_isolation_rate_limits "cli_user" s.w with
      | (.error _, w1) => ({ s with w := w1 }, [.rateCheck i, .crashed i], false, true)
      | (.ok r, w1) =>
        let s1 : LoopSt := { s with w := w1 }
        if !r.allowed then
          (s1, [.rateCheck i, .rateDenied i], true, false)
        else
          let should_ask_confirmation := requires_confirmation threat_confidence
          let can_auto_isolate := should_auto_isolate threat_confidence
          if can_auto_isolate then
            let r1 := attemptIsolation device_name hunt_id t.title i
              (some "auto_approved") none e s1
            (r1.1, .rateCheck i :: r1.2, false, false)
          else if should_ask_confirmation then
            let confirm := pyLower (pyStrip e.confirmInput)
            if pyStartsWith confirm "y" then
              let r1 := attemptIsolation device_name hunt_id t.title i
                (some "approved") (some "approved") e s1
              (r1.1, .rateCheck i :: .confirmPrompt i :: r1.2, false, false)
            else
              match alert_isolation_declined device_name t.title
                  threat_confidence "cli_user" with
              | .error _ =>
                (s1, [.rateCheck i, .confirmPrompt i, .crashed i], false, true)
              | .ok _ =>
                ({ s1 with w := (log_user_decision device_name t.title
                                  "declined" threat_confidence s1.w) },
                 [.rateCheck i, .confirmPrompt i], false, false)
          else
            (s1, [.rateCheck i], false, false)
  else
    (s, [], false, false)

/-- The loop over the findings from index i on: run one iteration, stop when
it broke (Python break) or crashed (uncaught exception), else continue with
the next threat.  Returns the trace of observable actions. -/
def runThreats (hostOrMass : Bool) (device_name hunt_id : String) (i : Nat)
    (ts : List (ThreatCtx × Env)) (s : LoopSt) : List TraceEv :=
  match ts with
  | [] => []
  | (t, e) :: rest =>
    let r := stepThreat hostOrMass device_name hunt_id i t e s
    if r.2.2.1 || r.2.2.2 then r.2.1
    else r.2.1 ++ runThreats hostOrMass device_name hunt_id (i + 1) rest r.1

/-- The whole per-batch loop, started as _main.py does: first threat at
index 0, machine_is_isolated false. -/
def runBatch (hostOrMass : Bool) (device_name hunt_id : String) (w : World)
    (ts : List (ThreatCtx × Env)) : List TraceEv :=
  runThreats hostOrMass device_name hunt_id 0 ts { w := w, isolated := false }

/-- Number of successful-isolation rows logged in a trace. -/
def successCount (tr : List TraceEv) : Nat :=
  (tr.filter fun ev => match ev with
    | .isolationLog _ _ ok => ok
    | _ => false).length

/-! ## Concrete inputs used by the theorems below -/

/-- A successful isolation row for the actor cli_user at the given time. -/
def successEventAt (ts : Nat) (k : Nat) : IsolationEvent :=
  { timestamp := ts, user := "cli_user", machine_id := "m" ++ toString k,
    device_name := "dev", threat_id := "h1", threat_title := "threat",
    action_result := "success", approved_by := none, user_decision := none,
    alert_sent := false }

/-- An unlocked world holding n successful cli_user isolations at time ts,
observed at time now. -/
def worldWith (n ts now : Nat) : World :=
  { lockFile := none, events := (List.range n).map (successEventAt ts),
    audit := [], now }

def world11in5min : World := worldWith 11 1000 1000
def world5in5min : World := worldWith 5 1000 1000
def world4in5min : World := worldWith 4 1000 1000
def world10inHour : World := worldWith 10 9000 10000
def world15inDay : World := worldWith 15 5000 10000
def world16inDay : World := worldWith 16 5000 10000

/-- A threat of critical confidence on its own device, for batch counting. -/
def mkCritThreat (k : Nat) : Threat :=
  { confidence? := some "critical", device_name? := some ("dev-" ++ toString k),
    title? := some "threat", indicators_of_compromise := [] }

def batch9 : List Threat := (List.range 9).map mkCritThreat
def batch10 : List Threat := (List.range 10).map mkCritThreat

/-- A concrete exception summary, used where the decision ignores it. -/
def sampleException : MassExceptionResult :=
  { exception_applies := true, high_count := 5, critical_count := 5,
    total_high_critical := 10, total_devices := 3, threat_summary := [] }

def preLockWorld : World := { lockFile := none, events := [], audit := [], now := 100 }
def lockedOnce : World := create_lockout "first reason" preLockWorld
def lockedTwice : World := create_lockout "second reason" lockedOnce

/-- A world whose lock file is engaged. -/
def lockedWorld : World :=
  { lockFile := some { time := 0, reason := "locked" }, events := [], audit := [],
    now := 0 }

/-- An unlocked world with an empty history. -/
def cleanWorld : World := { lockFile := none, events := [], audit := [], now := 1000 }

/-- An environment whose executor responses resolve the machine and succeed. -/
def envSucceeds : Env := { confirmInput := "", machineId := some "mid-1", isolateSuccess := true }

/-- A batch of two critical-confidence threats. -/
def twoCritical : List (ThreatCtx × Env) :=
  [({ confidence := "critical", title := "t1" }, envSucceeds),
   ({ confidence := "critical", title := "t2" }, envSucceeds)]

/-- Bundles the observable outcome of one loop iteration: its events, break
flag, crash flag, and resulting machine_is_isolated flag. -/
def StepShape (h : Bool) (d hid : String) (i : Nat) (t : ThreatCtx) (e : Env)
    (s : LoopSt) (evs : List TraceEv) (brk crash iso : Bool) : Prop :=
  (stepThreat h d hid i t e s).2.1 = evs ∧
  (stepThreat h d hid i t e s).2.2.1 = brk ∧
  (stepThreat h d hid i t e s).2.2.2 = crash ∧
  (stepThreat h d hid i t e s).1.isolated = iso

/-! ## Theorems -/

/-- C1 (code evaluation at the failing input): with 11 successful isolations
of the last 5 minutes and no lock engaged, check_isolation_rate_limits does
not return a denial and does not engage the lockout: the two-argument call
of alert_rate_limit_exceeded at GUARDRAILS.py line 151 raises TypeError
before the create_lockout call of line 155 is reached, so the exception
propagates and the world, lock file included, is left unchanged. -/
theorem excessive_rate_raises_before_lockout :
    (check_isolation_rate_limits "cli_user" world11in5min).1 =
      .error (.typeError
        "alert_rate_limit_exceeded missing 1 required positional argument: device_name")
    ∧ (check_isolation_rate_limits "cli_user" world11in5min).2 = world11in5min := by
  decide

/-- C2 (code evaluation at the boundaries): with exactly 5 successful
isolations of the last 5 minutes the check raises TypeError instead of
returning the claimed denial with current_count 5; with 4 it allows with
current_count 4; an hourly count of exactly 10 and a daily count of exactly
15 do not deny (the hour and day windows use strict comparisons). -/
theorem rate_limit_boundary_eval :
    (check_isolation_rate_limits "cli_user" world5in5min).1 =
      .error (.typeError
        "alert_rate_limit_exceeded missing 1 required positional argument: device_name")
    ∧ (check_isolation_rate_limits "cli_user" world4in5min).1 =
        .ok { allowed := true, reason := "Within rate limits", current_count := 4 }
    ∧ (check_isolation_rate_limits "cli_user" world10inHour).1 =
        .ok { allowed := true, reason := "Within rate limits", current_count := 0 }
    ∧ (check_isolation_rate_limits "cli_user" world15inDay).1 =
        .ok { allowed := true, reason := "Within rate limits", current_count := 0 } := by
  decide

/-- C3 (code evaluation): every notifier entry point used while deciding
raises TypeError instead of returning, because send_email_alert is called
with two positional arguments while its parameter to_email has no default
(and alert_rate_limit_exceeded is itself called with two arguments while
device_name has no default); consequently check_isolation_rate_limits
propagates the exception instead of returning its result, here shown on the
daily-limit path. -/
theorem alerting_raises_into_governance :
    alert_rate_limit_exceeded_call2 11 "5 minutes" =
      .error (.typeError
        "alert_rate_limit_exceeded missing 1 required positional argument: device_name")
    ∧ alert_mass_isolation_attempt 11 "cli_user" =
        .error (.typeError
          "send_email_alert missing 1 required positional argument: to_email")
    ∧ alert_daily_limit_reached "cli_user" =
        .error (.typeError
          "send_email_alert missing 1 required positional argument: to_email")
    ∧ alert_isolation_declined "dev" "threat" "high" "cli_user" =
        .error (.typeError
          "send_email_alert missing 1 required positional argument: to_email")
    ∧ alert_mass_isolation_decision 3 12 "approved" "cli_user" =
        .error (.typeError
          "send_email_alert missing 1 required positional argument: to_email")
    ∧ (check_isolation_rate_limits "cli_user" world16inDay).1 =
        .error (.typeError
          "send_email_alert missing 1 required positional argument: to_email") := by
  decide

/-- C4: should_auto_isolate holds exactly for strings that lowercase to
critical; strings lowercasing to high or medium require confirmation and
never auto-isolate; strings lowercasing to low neither auto-isolate nor
require confirmation; every unrecognized string requires confirmation and
never auto-isolates. -/
theorem confidence_policy_classification (c : String) :
    (should_auto_isolate c = true ↔ pyLower c = "critical")
    ∧ (pyLower c = "high" ∨ pyLower c = "medium" →
        requires_confirmation c = true ∧ should_auto_isolate c = false)
    ∧ (pyLower c = "low" →
        should_auto_isolate c = false ∧ requires_confirmation c = false)
    ∧ (pyLower c ≠ "critical" → pyLower c ≠ "high" → pyLower c ≠ "medium" →
        pyLower c ≠ "low" →
        requires_confirmation c = true ∧ should_auto_isolate c = false) := by
  unfold should_auto_isolate requires_confirmation CONFIDENCE_RULES_get
  by_cases h1 : pyLower c = "critical" <;>
    by_cases h2 : pyLower c = "high" <;>
      by_cases h3 : pyLower c = "medium" <;>
        by_cases h4 : pyLower c = "low" <;>
          simp_all

/-- C4 witness: the classification applied at concrete confidence strings. -/
theorem confidence_policy_classification_witness :
    should_auto_isolate "CRITICAL" = true ∧ requires_confirmation "Unheard-of" = true :=
  ⟨(confidence_policy_classification "CRITICAL").1.mpr (by decide),
   ((confidence_policy_classification "Unheard-of").2.2.2 (by decide) (by decide)
      (by decide) (by decide)).1⟩

/-- C10: no confidence string both auto-isolates and requires confirmation;
the lookup returns one rule string, which cannot equal both rule names, so
the if/elif/else of _main.py selects exactly one directive. -/
theorem confidence_directives_exclusive (c : String) :
    (should_auto_isolate c && requires_confirmation c) = false := by
  unfold should_auto_isolate requires_confirmation
  by_cases h : CONFIDENCE_RULES_get (pyLower c) "require_confirmation" = "auto_isolate" <;>
    simp [h]

/-- C5: exception_applies equals the test 10 or more combined high and
critical threats, counted case-insensitively over the batch; it is false at
a combined count of 9 and true at 10 (check_mass_isolation_exception is a
pure function of its arguments in this embedding, as the Python body reads
no state and performs no writes). -/
theorem mass_isolation_exception_threshold :
    (∀ (threats : List Threat) (device_name : Option String),
      (check_mass_isolation_exception threats device_name).exception_applies =
        decide (10 ≤ (check_mass_isolation_exception threats device_name).high_count +
          (check_mass_isolation_exception threats device_name).critical_count)
      ∧ (check_mass_isolation_exception threats device_name).high_count =
          (threats.filter fun t => pyLower (t.confidence?.getD "") == "high").length
      ∧ (check_mass_isolation_exception threats device_name).critical_count =
          (threats.filter fun t => pyLower (t.confidence?.getD "") == "critical").length)
    ∧ (check_mass_isolation_exception batch9 none).exception_applies = false
    ∧ (check_mass_isolation_exception batch10 none).exception_applies = true := by
  refine ⟨fun threats device_name => ⟨?_, ?_, ?_⟩, by decide, by decide⟩ <;>
    simp [check_mass_isolation_exception]

/-- C6 counterexample: an input that differs from the confirmation phrase
only by a leading space is approved, because confirm_mass_isolation strips
the input before comparing (GUARDRAILS.py line 340), contradicting the
claim that such variants decline. -/
theorem confirm_strip_approves_whitespace_variant :
    (confirm_mass_isolation sampleException " CONFIRM MASS ISOLATION" 0).approved = true
    ∧ " CONFIRM MASS ISOLATION" ≠ "CONFIRM MASS ISOLATION" := by
  decide

/-- C6 amended: for every exception summary and raw input, approval holds
exactly when the input stripped of surrounding whitespace equals the
case-sensitive phrase; in particular the empty string and case variants
still decline. -/
theorem confirm_mass_isolation_approval :
    (∀ (exc : MassExceptionResult) (raw : String) (now : Nat),
      (confirm_mass_isolation exc raw now).approved =
        (pyStrip raw == "CONFIRM MASS ISOLATION"))
    ∧ (∀ (exc : MassExceptionResult) (now : Nat),
        (confirm_mass_isolation exc "" now).approved = false)
    ∧ (∀ (exc : MassExceptionResult) (now : Nat),
        (confirm_mass_isolation exc "confirm mass isolation" now).approved = false) :=
  ⟨fun _ _ _ => rfl, fun _ _ => rfl, fun _ _ => rfl⟩

/-- C7 counterexample: engaging the lockout twice is not a no-op.  The
second create_lockout call, made while the lock is already engaged,
rewrites the lock file (its reason changes) and appends a second
agent_lockout audit record, so two consecutive calls persist two audit
records, not one. -/
theorem create_lockout_second_call_not_noop :
    check_lockout lockedOnce = true
    ∧ (lockedTwice.audit.filter fun a => a.action_type == "agent_lockout").length = 2
    ∧ lockedTwice.lockFile = some { time := 100, reason := "second reason" }
    ∧ lockedTwice.lockFile ≠ lockedOnce.lockFile := by
  decide

/-! ## Structural lemmas about the per-threat loop -/

/-- One loop iteration has one of finitely many observable outcomes: the
non-host no-op; the already-isolated skip; a crash at the rate check; a
returned rate-limit denial that breaks; an auto or confirmed isolation
attempt with an unresolved machine, a logged success, or a logged failure;
a crash on the declined-confirmation alert; or the low-confidence skip. -/
theorem stepThreat_cases (h : Bool) (d hid : String) (i : Nat) (t : ThreatCtx)
    (e : Env) (s : LoopSt) :
    StepShape h d hid i t e s [] false false s.isolated
    ∨ (s.isolated = true ∧
        StepShape h d hid i t e s [.skippedAlreadyIsolated i] false false true)
    ∨ (s.isolated = false ∧
        (StepShape h d hid i t e s [.rateCheck i, .crashed i] false true false
        ∨ StepShape h d hid i t e s [.rateCheck i, .rateDenied i] true false false
        ∨ StepShape h d hid i t e s [.rateCheck i, .isolationAttempt i] false false false
        ∨ StepShape h d hid i t e s
            [.rateCheck i, .isolationAttempt i, .isolationLog i d true] false false true
        ∨ StepShape h d hid i t e s
            [.rateCheck i, .isolationAttempt i, .isolationLog i d false] false false false
        ∨ StepShape h d hid i t e s
            [.rateCheck i, .confirmPrompt i, .isolationAttempt i] false false false
        ∨ StepShape h d hid i t e s
            [.rateCheck i, .confirmPrompt i, .isolationAttempt i, .isolationLog i d true]
            false false true
        ∨ StepShape h d hid i t e s
            [.rateCheck i, .confirmPrompt i, .isolationAttempt i, .isolationLog i d false]
            false false false
        ∨ StepShape h d hid i t e s [.rateCheck i, .confirmPrompt i, .crashed i]
            false true false
        ∨ StepShape h d hid i t e s [.rateCheck i] false false false)) := by
  unfold StepShape
  simp only [stepThreat, attemptIsolation]
  repeat' split
  all_goals simp_all [alert_isolation_declined, send_email_alert_call2]

/-- All observable actions of one iteration carry that iteration's index; a
returned rate-limit denial sets the break flag; the already-isolated skip
event occurs only when the flag was already set; the flag is monotone, is
set exactly when a success row is logged, and one iteration logs at most
one success row (exactly one when it newly sets the flag). -/
theorem stepThreat_facts (h : Bool) (d hid : String) (i : Nat) (t : ThreatCtx)
    (e : Env) (s : LoopSt) :
    (∀ ev ∈ (stepThreat h d hid i t e s).2.1, ev.idx = i)
    ∧ (∀ j, TraceEv.rateDenied j ∈ (stepThreat h d hid i t e s).2.1 →
        (stepThreat h d hid i t e s).2.2.1 = true)
    ∧ (∀ j, TraceEv.skippedAlreadyIsolated j ∈ (stepThreat h d hid i t e s).2.1 →
        s.isolated = true)
    ∧ (s.isolated = true → (stepThreat h d hid i t e s).1.isolated = true)
    ∧ ((stepThreat h d hid i t e s).1.isolated = true →
        s.isolated = true ∨
          TraceEv.isolationLog i d true ∈ (stepThreat h d hid i t e s).2.1)
    ∧ (TraceEv.isolationLog i d true ∈ (stepThreat h d hid i t e s).2.1 →
        (stepThreat h d hid i t e s).1.isolated = true)
    ∧ (successCount (stepThreat h d hid i t e s).2.1 =
        if (stepThreat h d hid i t e s).1.isolated && !s.isolated then 1 else 0) := by
  rcases stepThreat_cases h d hid i t e s with
    ⟨h1, h2, h3, h4⟩ |
    ⟨hiso, h1, h2, h3, h4⟩ |
    ⟨hiso, ⟨h1, h2, h3, h4⟩ | ⟨h1, h2, h3, h4⟩ | ⟨h1, h2, h3, h4⟩ | ⟨h1, h2, h3, h4⟩ |
      ⟨h1, h2, h3, h4⟩ | ⟨h1, h2, h3, h4⟩ | ⟨h1, h2, h3, h4⟩ | ⟨h1, h2, h3, h4⟩ |
      ⟨h1, h2, h3, h4⟩ | ⟨h1, h2, h3, h4⟩⟩ <;>
    refine ⟨?_, ?_, ?_, ?_, ?_, ?_, ?_⟩ <;>
      simp_all [successCount, TraceEv.idx]

/-- Unfolding of the loop at a cons cell. -/
theorem runThreats_cons (h : Bool) (d hid : String) (i : Nat) (t : ThreatCtx)
    (e : Env) (rest : List (ThreatCtx × Env)) (s : LoopSt) :
    runThreats h d hid i ((t, e) :: rest) s =
      if (stepThreat h d hid i t e s).2.2.1 || (stepThreat h d hid i t e s).2.2.2 then
        (stepThreat h d hid i t e s).2.1
      else
        (stepThreat h d hid i t e s).2.1 ++
          runThreats h d hid (i + 1) rest (stepThreat h d hid i t e s).1 := rfl

/-- Every event of the loop started at index i carries an index at least i. -/
theorem runThreats_idx_ge (h : Bool) (d hid : String) :
    ∀ (ts : List (ThreatCtx × Env)) (i : Nat) (s : LoopSt),
      ∀ ev ∈ runThreats h d hid i ts s, i ≤ ev.idx := by
  intro ts
  induction ts with
  | nil => intro i s ev hev; simp [runThreats] at hev
  | cons te rest ih =>
    obtain ⟨t, e⟩ := te
    intro i s ev hev
    rw [runThreats_cons] at hev
    by_cases hb : (stepThreat h d hid i t e s).2.2.1 || (stepThreat h d hid i t e s).2.2.2
    · rw [if_pos hb] at hev
      exact le_of_eq ((stepThreat_facts h d hid i t e s).1 ev hev).symm
    · rw [if_neg hb] at hev
      rcases List.mem_append.mp hev with hin | hin
      · exact le_of_eq ((stepThreat_facts h d hid i t e s).1 ev hin).symm
      · exact le_trans (Nat.le_succ i) (ih (i + 1) _ ev hin)

/-- Once an iteration returns a rate-limit denial, the trace holds no event
of a later iteration. -/
theorem runThreats_denied_halts (h : Bool) (d hid : String) :
    ∀ (ts : List (ThreatCtx × Env)) (i : Nat) (s : LoopSt) (j : Nat),
      TraceEv.rateDenied j ∈ runThreats h d hid i ts s →
      ∀ ev ∈ runThreats h d hid i ts s, ev.idx ≤ j := by
  intro ts
  induction ts with
  | nil => intro i s j hden; simp [runThreats] at hden
  | cons te rest ih =>
    obtain ⟨t, e⟩ := te
    intro i s j hden ev hev
    rw [runThreats_cons] at hden hev
    by_cases hb : (stepThreat h d hid i t e s).2.2.1 || (stepThreat h d hid i t e s).2.2.2
    · rw [if_pos hb] at hden hev
      have hj := (stepThreat_facts h d hid i t e s).1 _ hden
      have hei := (stepThreat_facts h d hid i t e s).1 ev hev
      simp only [TraceEv.idx] at hj
      omega
    · rw [if_neg hb] at hden hev
      rcases List.mem_append.mp hden with hd | hd
      · have hbrk := (stepThreat_facts h d hid i t e s).2.1 j hd
        simp [hbrk] at hb
      · have hjge : i + 1 ≤ j := by
          have := runThreats_idx_ge h d hid rest (i + 1) _ _ hd
          simpa [TraceEv.idx] using this
        rcases List.mem_append.mp hev with hin | hin
        · have := (stepThreat_facts h d hid i t e s).1 ev hin
          omega
        · exact ih (i + 1) _ j hd ev hin

/-- An already-isolated skip at index j, in a loop started with the flag
clear, is preceded by a successful isolation of the device at an earlier
index of the same trace. -/
theorem runThreats_skip_after_success (h : Bool) (d hid : String) :
    ∀ (ts : List (ThreatCtx × Env)) (i : Nat) (s : LoopSt), s.isolated = false →
      ∀ j, TraceEv.skippedAlreadyIsolated j ∈ runThreats h d hid i ts s →
        ∃ k, i ≤ k ∧ k < j ∧
          TraceEv.isolationLog k d true ∈ runThreats h d hid i ts s := by
  intro ts
  induction ts with
  | nil => intro i s hs j hj; simp [runThreats] at hj
  | cons te rest ih =>
    obtain ⟨t, e⟩ := te
    intro i s hs j hj
    rw [runThreats_cons] at hj ⊢
    by_cases hb : (stepThreat h d hid i t e s).2.2.1 || (stepThreat h d hid i t e s).2.2.2
    · rw [if_pos hb] at hj
      have := (stepThreat_facts h d hid i t e s).2.2.1 j hj
      rw [hs] at this
      exact absurd this (by simp)
    · rw [if_neg hb] at hj
      rw [if_neg hb]
      rcases List.mem_append.mp hj with hd | hd
      · have := (stepThreat_facts h d hid i t e s).2.2.1 j hd
        rw [hs] at this
        exact absurd this (by simp)
      · have hjge : i + 1 ≤ j := by
          have := runThreats_idx_ge h d hid rest (i + 1) _ _ hd
          simpa [TraceEv.idx] using this
        by_cases hs1 : (stepThreat h d hid i t e s).1.isolated = true
        · rcases (stepThreat_facts h d hid i t e s).2.2.2.2.1 hs1 with hcontra | hlog
          · rw [hs] at hcontra
            exact absurd hcontra (by simp)
          · exact ⟨i, le_refl i, by omega, List.mem_append.mpr (Or.inl hlog)⟩
        · have hs1' : (stepThreat h d hid i t e s).1.isolated = false := by
            simpa using hs1
          obtain ⟨k, hk1, hk2, hk3⟩ := ih (i + 1) _ hs1' j hd
          exact ⟨k, by omega, hk2, List.mem_append.mpr (Or.inr hk3)⟩

/-- The filter defining successCount distributes over append. -/
theorem successCount_append (a b : List TraceEv) :
    successCount (a ++ b) = successCount a + successCount b := by
  simp [successCount, List.filter_append]

/-- A loop started with the machine_is_isolated flag set logs no success. -/
theorem runThreats_no_success_of_isolated (h : Bool) (d hid : String) :
    ∀ (ts : List (ThreatCtx × Env)) (i : Nat) (s : LoopSt), s.isolated = true →
      successCount (runThreats h d hid i ts s) = 0 := by
  intro ts
  induction ts with
  | nil => intro i s hs; simp [runThreats, successCount]
  | cons te rest ih =>
    obtain ⟨t, e⟩ := te
    intro i s hs
    rw [runThreats_cons]
    have hstep : successCount (stepThreat h d hid i t e s).2.1 = 0 := by
      rw [(stepThreat_facts h d hid i t e s).2.2.2.2.2.2]
      simp [hs]
    by_cases hb : (stepThreat h d hid i t e s).2.2.1 || (stepThreat h d hid i t e s).2.2.2
    · rw [if_pos hb]; exact hstep
    · rw [if_neg hb, successCount_append, hstep,
        ih (i + 1) _ ((stepThreat_facts h d hid i t e s).2.2.2.1 hs)]

/-- A loop started with the flag clear logs at most one success row. -/
theorem runThreats_success_le_one (h : Bool) (d hid : String) :
    ∀ (ts : List (ThreatCtx × Env)) (i : Nat) (s : LoopSt), s.isolated = false →
      successCount (runThreats h d hid i ts s) ≤ 1 := by
  intro ts
  induction ts with
  | nil => intro i s hs; simp [runThreats, successCount]
  | cons te rest ih =>
    obtain ⟨t, e⟩ := te
    intro i s hs
    rw [runThreats_cons]
    have hstep := (stepThreat_facts h d hid i t e s).2.2.2.2.2.2
    by_cases hb : (stepThreat h d hid i t e s).2.2.1 || (stepThreat h d hid i t e s).2.2.2
    · rw [if_pos hb, hstep]
      split <;> simp
    · rw [if_neg hb, successCount_append]
      by_cases hs1 : (stepThreat h d hid i t e s).1.isolated = true
      · have hrest : successCount (runThreats h d hid (i + 1) rest
            (stepThreat h d hid i t e s).1) = 0 :=
          runThreats_no_success_of_isolated h d hid rest (i + 1) _ hs1
        rw [hrest, hstep]
        simp [hs, hs1]
      · have hs1' : (stepThreat h d hid i t e s).1.isolated = false := by simpa using hs1
        have hz : successCount (stepThreat h d hid i t e s).2.1 = 0 := by
          rw [hstep]
          simp [hs1']
        rw [hz]
        simpa using ih (i + 1) _ hs1'

/-- C8: once check_isolation_rate_limits returns a denial for the threat at
index j of a batch, no event of the run — rate-limit check, confirmation
prompt, isolation attempt or isolation log entry — belongs to any later
threat: every event of the trace carries an index at most j. -/
theorem rate_limit_denial_aborts_batch (host : Bool) (device hunt : String)
    (w : World) (ts : List (ThreatCtx × Env)) (j : Nat)
    (hden : TraceEv.rateDenied j ∈ runBatch host device hunt w ts) :
    ∀ ev ∈ runBatch host device hunt w ts, ev.idx ≤ j :=
  runThreats_denied_halts host device hunt ts 0 { w := w, isolated := false } j hden

/-- C8 witness: a locked world makes the check return a denial at index 0 of
a two-threat batch, and the theorem bounds every trace index by 0. -/
theorem rate_limit_denial_aborts_batch_witness :
    TraceEv.rateDenied 0 ∈ runBatch true "dev" "h1" lockedWorld twoCritical
    ∧ ∀ ev ∈ runBatch true "dev" "h1" lockedWorld twoCritical, ev.idx ≤ 0 :=
  ⟨by decide,
   rate_limit_denial_aborts_batch true "dev" "h1" lockedWorld twoCritical 0 (by decide)⟩

/-- C9: in a batch run, a threat is skipped by the already-isolated rule
only when the target device was successfully isolated at an earlier index
of the same run, and at most one successful isolation is logged per run
(the loop always targets the single queried device). -/
theorem already_isolated_skip_sound (host : Bool) (device hunt : String)
    (w : World) (ts : List (ThreatCtx × Env)) :
    (∀ j, TraceEv.skippedAlreadyIsolated j ∈ runBatch host device hunt w ts →
      ∃ k, k < j ∧ TraceEv.isolationLog k device true ∈ runBatch host device hunt w ts)
    ∧ successCount (runBatch host device hunt w ts) ≤ 1 := by
  constructor
  · intro j hj
    obtain ⟨k, _, hk2, hk3⟩ :=
      runThreats_skip_after_success host device hunt ts 0
        { w := w, isolated := false } rfl j hj
    exact ⟨k, hk2, hk3⟩
  · exact runThreats_success_le_one host device hunt ts 0
      { w := w, isolated := false } rfl

/-- C9 witness: with a clean world and two critical threats whose isolation
succeeds, the second threat is skipped by the already-isolated rule and the
theorem produces the earlier successful isolation of the device. -/
theorem already_isolated_skip_sound_witness :
    TraceEv.skippedAlreadyIsolated 1 ∈ runBatch true "dev" "h1" cleanWorld twoCritical
    ∧ ∃ k, k < 1 ∧
        TraceEv.isolationLog k "dev" true ∈ runBatch true "dev" "h1" cleanWorld twoCritical :=
  ⟨by decide,
   (already_isolated_skip_sound true "dev" "h1" cleanWorld twoCritical).1 1 (by decide)⟩

/-- C7 amended: create_lockout is unconditional.  Every call, also while the
lock is already engaged, overwrites the lock file with the current time and
reason and appends exactly one agent_lockout audit record, so two
consecutive calls append two audit records and the lock file reflects the
later call. -/
theorem create_lockout_unconditional (reason : String) (w : World) :
    (create_lockout reason w).lockFile = some { time := w.now, reason }
    ∧ (create_lockout reason w).audit =
        w.audit ++ [{ action_type := "agent_lockout", success := true,
                      user := "system", device_name := none,
                      details := [("reason", reason)] }]
    ∧ ∀ reason2 : String,
        (create_lockout reason2 (create_lockout reason w)).audit.length =
          w.audit.length + 2 := by
  refine ⟨rfl, rfl, fun reason2 => ?_⟩
  simp [create_lockout, log_action]

end SOCAgent
